import Mathlib

/-!
Verification of the download task orchestration engine of Openlist-Ani.

The definitions below are a shallow embedding of the Python sources under
`src/openlist_ani/core/download/`:

* `model/task.py` — the `DownloadState` enumeration, the `STATE_TRANSITIONS`
  table and the `DownloadTask` dataclass with its methods (`update_state`,
  `mark_failed`, `can_retry`, `retry`, `to_dict`, `from_dict`);
* `manager.py` — the attribute names the manager reads off its downloader and
  handler results, its failure handling routine `_handle_task_failure`, and
  the persistence routines `_save_state` / `_load_state`;
* `downloader/base.py` / `downloader/openlist_downloader.py` — the adapter
  interface, the `HandlerResult` fields, and the downloaded-file detection
  (`_is_video_file`, `_collect_video_files`, `_detect_downloaded_file`);
* `downloader/api/openlist.py` — the retry/backoff loop of
  `OpenListClient._request` and the sentinel return convention of the
  remote operations built on it.

Python exceptions are modelled with `Except`, `datetime.now()` is passed in
explicitly as an opaque timestamp string, and machine-level concerns that the
claims do not touch (the asyncio semaphores, HTTP timeouts, logging) are
dropped.
-/

namespace OpenlistAni

/-! ### `model/task.py` — states and the transition table -/

/-- `DownloadState` (a `StrEnum`) from `model/task.py`. -/
inductive DownloadState where
  | pending
  | downloading
  | downloaded
  | postProcessing
  | completed
  | failed
  | cancelled
deriving DecidableEq, Repr, Inhabited

/-- The string value of each `DownloadState` member (`StrEnum` values). -/
def DownloadState.toLabel : DownloadState → String
  | .pending => "pending"
  | .downloading => "downloading"
  | .downloaded => "downloaded"
  | .postProcessing => "processing"
  | .completed => "completed"
  | .failed => "failed"
  | .cancelled => "cancelled"

/-- The `DownloadState(value)` constructor: `some` member with that value, or
`none` where Python raises `ValueError`. -/
def DownloadState.ofLabel : String → Option DownloadState
  | "pending" => some .pending
  | "downloading" => some .downloading
  | "downloaded" => some .downloaded
  | "processing" => some .postProcessing
  | "completed" => some .completed
  | "failed" => some .failed
  | "cancelled" => some .cancelled
  | _ => none

/-- `STATE_TRANSITIONS` from `model/task.py` (line 37): the allowed target
set of each state, written as a list. -/
def STATE_TRANSITIONS : DownloadState → List DownloadState
  | .pending => [.downloading, .cancelled, .failed]
  | .downloading => [.downloaded, .failed, .cancelled]
  | .downloaded => [.postProcessing, .failed, .cancelled]
  | .postProcessing => [.completed, .failed, .cancelled]
  | .completed => []
  | .failed => [.pending]
  | .cancelled => [.pending]

/-- Terminal states, as enumerated by `manager.py` when filtering tasks
(`COMPLETED`, `FAILED`, `CANCELLED`). -/
def DownloadState.isTerminal : DownloadState → Bool
  | .completed => true
  | .failed => true
  | .cancelled => true
  | _ => false

/-! ### `website/model.py` — the resource descriptor -/

/-- `VideoQuality` (`StrEnum`) from `website/model.py`. -/
inductive VideoQuality where
  | k2160p
  | k1080p
  | k720p
  | k480p
  | kUnknown
deriving DecidableEq, Repr, Inhabited

def VideoQuality.toLabel : VideoQuality → String
  | .k2160p => "2160p"
  | .k1080p => "1080p"
  | .k720p => "720p"
  | .k480p => "480p"
  | .kUnknown => "unknown"

/-- The `VideoQuality(value)` constructor (`none` = `ValueError`). -/
def VideoQuality.ofLabel : String → Option VideoQuality
  | "2160p" => some .k2160p
  | "1080p" => some .k1080p
  | "720p" => some .k720p
  | "480p" => some .k480p
  | "unknown" => some .kUnknown
  | _ => none

/-- `LanguageType` (`StrEnum`) from `website/model.py`. -/
inductive LanguageType where
  | kChs
  | kCht
  | kJp
  | kEng
  | kUnknown
deriving DecidableEq, Repr, Inhabited

def LanguageType.toLabel : LanguageType → String
  | .kChs => "简"
  | .kCht => "繁"
  | .kJp => "日"
  | .kEng => "英"
  | .kUnknown => "未知"

/-- The `LanguageType(value)` constructor (`none` = `ValueError`). -/
def LanguageType.ofLabel : String → Option LanguageType
  | "简" => some .kChs
  | "繁" => some .kCht
  | "日" => some .kJp
  | "英" => some .kEng
  | "未知" => some .kUnknown
  | _ => none

/-- `AnimeResourceInfo` from `website/model.py`. -/
structure AnimeResourceInfo where
  title : String
  download_url : String
  anime_name : Option String := none
  season : Option Int := none
  episode : Option Int := none
  fansub : Option String := none
  quality : Option VideoQuality := some .kUnknown
  languages : List LanguageType := []
  version : Int := 1
deriving DecidableEq, Repr, Inhabited

/-! ### `model/task.py` — the task dataclass and its methods -/

/-- A JSON-like value, used for the task's free-form `extra_data` map. -/
inductive PyValue where
  | str (s : String)
  | int (n : Int)
  | bool (b : Bool)
  | none
deriving DecidableEq, Repr, Inhabited

/-- `DownloadTask` from `model/task.py`: all dataclass fields. -/
structure DownloadTask where
  id : String
  state : DownloadState := .pending
  error_message : Option String := none
  retry_count : Int := 0
  max_retries : Int := 3
  save_path : String := ""
  temp_path : Option String := none
  final_path : Option String := none
  downloaded_filename : Option String := none
  initial_files : List String := []
  created_at : String
  updated_at : String
  started_at : Option String := none
  completed_at : Option String := none
  resource_info : AnimeResourceInfo
  extra_data : List (String × PyValue) := []
deriving DecidableEq, Repr

/-- `InvalidStateTransitionError` and `ValueError`, the exceptions the
embedded operations can raise. -/
inductive TaskError where
  | invalidStateTransition (cur target : DownloadState)
  | cannotRetry (cur : DownloadState) (retries maxRetries : Int)
  | valueError (label : String)
deriving DecidableEq, Repr

/-- `DownloadTask.update_state` (`model/task.py` line 106): raise if the
target is not in the current state's allowed set, otherwise set `state` and
refresh `updated_at` (the `now` argument stands for `datetime.now()`). -/
def DownloadTask.update_state (t : DownloadTask) (new_state : DownloadState)
    (now : String) : Except TaskError DownloadTask :=
  if new_state ∈ STATE_TRANSITIONS t.state then
    .ok { t with state := new_state, updated_at := now }
  else
    .error (.invalidStateTransition t.state new_state)

/-- `DownloadTask.mark_failed` (`model/task.py` line 116): record the error
message, then transition to `FAILED` through `update_state`. -/
def DownloadTask.mark_failed (t : DownloadTask) (msg : String)
    (now : String) : Except TaskError DownloadTask :=
  DownloadTask.update_state { t with error_message := some msg } .failed now

/-- `DownloadTask.can_retry` (`model/task.py` line 121). -/
def DownloadTask.can_retry (t : DownloadTask) : Bool :=
  t.state = DownloadState.failed ∧ t.retry_count < t.max_retries

/-- `DownloadTask.retry` (`model/task.py` line 127): raise unless
`can_retry()`; otherwise bump `retry_count`, clear the error, reset the state
to `PENDING` and refresh `updated_at`. -/
def DownloadTask.retry (t : DownloadTask) (now : String) :
    Except TaskError DownloadTask :=
  if t.can_retry then
    .ok { t with retry_count := t.retry_count + 1,
                 error_message := none,
                 state := .pending,
                 updated_at := now }
  else
    .error (.cannotRetry t.state t.retry_count t.max_retries)

/-! ### Claim C2 — `update_state` error condition and frame -/

/-- C2: `update_state(new)` raises an invalid-transition error exactly when
`new` is not in the transition table's allowed set for the current state, in
which case no mutated task is produced (the task is unchanged); on a legal
transition the state is set and the update timestamp refreshed, every other
field kept as it was (the `{t with ...}` update names exactly the two
mutated fields). -/
theorem update_state_spec (t : DownloadTask) (new_state : DownloadState)
    (now : String) :
    t.update_state new_state now =
      if new_state ∈ STATE_TRANSITIONS t.state then
        Except.ok { t with state := new_state, updated_at := now }
      else
        Except.error (TaskError.invalidStateTransition t.state new_state) :=
  rfl

/-! ### Claim C3 — shape of the transition table -/

/-- C3 counterexample: contrary to the claim, `CANCELLED` is reachable from
the final pre-terminal state `POST_PROCESSING` — the table's entry for
`POST_PROCESSING` contains `CANCELLED`. -/
theorem cancelled_reachable_from_post_processing :
    DownloadState.cancelled ∈ STATE_TRANSITIONS DownloadState.postProcessing := by
  decide

/-- C3 (amended): the transition table has a linear happy path
`PENDING → DOWNLOADING → DOWNLOADED → POST_PROCESSING → COMPLETED`, `FAILED`
and `CANCELLED` are both reachable from every one of the four non-terminal
states (including the final pre-terminal one), `COMPLETED` has no outgoing
edges, and `FAILED` and `CANCELLED` each have exactly one outgoing edge,
back to `PENDING`. -/
theorem state_transitions_shape :
    DownloadState.downloading ∈ STATE_TRANSITIONS DownloadState.pending ∧
    DownloadState.downloaded ∈ STATE_TRANSITIONS DownloadState.downloading ∧
    DownloadState.postProcessing ∈ STATE_TRANSITIONS DownloadState.downloaded ∧
    DownloadState.completed ∈ STATE_TRANSITIONS DownloadState.postProcessing ∧
    (DownloadState.failed ∈ STATE_TRANSITIONS DownloadState.pending ∧
     DownloadState.failed ∈ STATE_TRANSITIONS DownloadState.downloading ∧
     DownloadState.failed ∈ STATE_TRANSITIONS DownloadState.downloaded ∧
     DownloadState.failed ∈ STATE_TRANSITIONS DownloadState.postProcessing) ∧
    (DownloadState.cancelled ∈ STATE_TRANSITIONS DownloadState.pending ∧
     DownloadState.cancelled ∈ STATE_TRANSITIONS DownloadState.downloading ∧
     DownloadState.cancelled ∈ STATE_TRANSITIONS DownloadState.downloaded ∧
     DownloadState.cancelled ∈ STATE_TRANSITIONS DownloadState.postProcessing) ∧
    STATE_TRANSITIONS DownloadState.completed = [] ∧
    STATE_TRANSITIONS DownloadState.failed = [DownloadState.pending] ∧
    STATE_TRANSITIONS DownloadState.cancelled = [DownloadState.pending] := by
  decide

/-! ### `model/task.py` — serialization (`to_dict` / `from_dict`) -/

/-- The persisted form of `AnimeResourceInfo` inside a task record, as
produced by `dataclasses.asdict` and written to JSON: the enum fields carry
their string values. -/
structure ResourceRecord where
  title : String
  download_url : String
  anime_name : Option String
  season : Option Int
  episode : Option Int
  fansub : Option String
  quality : Option String
  languages : List String
  version : Int
deriving DecidableEq, Repr

/-- The persisted form of a `DownloadTask`, as produced by
`DownloadTask.to_dict` (`dataclasses.asdict`) and consumed by
`DownloadTask.from_dict`: one key per dataclass field, with `state` carried
as its textual label. -/
structure TaskRecord where
  id : String
  state : String
  error_message : Option String
  retry_count : Int
  max_retries : Int
  save_path : String
  temp_path : Option String
  final_path : Option String
  downloaded_filename : Option String
  initial_files : List String
  created_at : String
  updated_at : String
  started_at : Option String
  completed_at : Option String
  resource_info : ResourceRecord
  extra_data : List (String × PyValue)
deriving DecidableEq, Repr

/-- `DownloadTask.to_dict` (`model/task.py` line 152): `asdict(self)`, which
copies every field, recursing into `resource_info` and carrying each
`StrEnum` member as its string value. -/
def DownloadTask.to_dict (t : DownloadTask) : TaskRecord :=
  { id := t.id
    state := t.state.toLabel
    error_message := t.error_message
    retry_count := t.retry_count
    max_retries := t.max_retries
    save_path := t.save_path
    temp_path := t.temp_path
    final_path := t.final_path
    downloaded_filename := t.downloaded_filename
    initial_files := t.initial_files
    created_at := t.created_at
    updated_at := t.updated_at
    started_at := t.started_at
    completed_at := t.completed_at
    resource_info :=
      { title := t.resource_info.title
        download_url := t.resource_info.download_url
        anime_name := t.resource_info.anime_name
        season := t.resource_info.season
        episode := t.resource_info.episode
        fansub := t.resource_info.fansub
        quality := t.resource_info.quality.map VideoQuality.toLabel
        languages := t.resource_info.languages.map LanguageType.toLabel
        version := t.resource_info.version }
    extra_data := t.extra_data }

/-- The `resource_info` conversion inside `DownloadTask.from_dict`
(`model/task.py` lines 164-178): `quality` and each entry of `languages` are
converted back through the enum constructors, which raise `ValueError` on an
unknown label; a `None` quality is left as is. -/
def resourceInfoFromRecord (r : ResourceRecord) :
    Except TaskError AnimeResourceInfo := do
  let quality ← match r.quality with
    | Option.none => pure Option.none
    | some q => match VideoQuality.ofLabel q with
      | some v => pure (some v)
      | Option.none => Except.error (TaskError.valueError q)
  let languages ← r.languages.mapM fun l => match LanguageType.ofLabel l with
    | some v => pure v
    | Option.none => Except.error (TaskError.valueError l)
  pure
    { title := r.title
      download_url := r.download_url
      anime_name := r.anime_name
      season := r.season
      episode := r.episode
      fansub := r.fansub
      quality := quality
      languages := languages
      version := r.version }

/-- `DownloadTask.from_dict` (`model/task.py` line 156): the `state` string
is converted through the `DownloadState` constructor — which raises
`ValueError` on any label that is not a current member — the resource
record is rebuilt, and every other field is passed through to the dataclass
constructor unchanged. -/
def DownloadTask.from_dict (r : TaskRecord) : Except TaskError DownloadTask := do
  let state ← match DownloadState.ofLabel r.state with
    | some s => pure s
    | Option.none => Except.error (TaskError.valueError r.state)
  let resource_info ← resourceInfoFromRecord r.resource_info
  pure
    { id := r.id
      state := state
      error_message := r.error_message
      retry_count := r.retry_count
      max_retries := r.max_retries
      save_path := r.save_path
      temp_path := r.temp_path
      final_path := r.final_path
      downloaded_filename := r.downloaded_filename
      initial_files := r.initial_files
      created_at := r.created_at
      updated_at := r.updated_at
      started_at := r.started_at
      completed_at := r.completed_at
      resource_info := resource_info
      extra_data := r.extra_data }

/-- Enum label round-trip for states. -/
theorem stateLabel_roundtrip (s : DownloadState) :
    DownloadState.ofLabel s.toLabel = some s := by
  cases s <;> rfl

/-- Enum label round-trip for qualities. -/
theorem qualityLabel_roundtrip (q : VideoQuality) :
    VideoQuality.ofLabel q.toLabel = some q := by
  cases q <;> rfl

/-- Enum label round-trip for language tags. -/
theorem languageLabel_roundtrip (l : LanguageType) :
    LanguageType.ofLabel l.toLabel = some l := by
  cases l <;> rfl

/-- Converting serialized language labels back through the enum constructor
restores the original list. -/
theorem languages_roundtrip (ls : List LanguageType) :
    (ls.map LanguageType.toLabel).mapM
      (fun l => match LanguageType.ofLabel l with
        | some v => pure v
        | Option.none => Except.error (TaskError.valueError l)) =
      Except.ok ls := by
  induction ls with
  | nil => rfl
  | cons x xs ih =>
    simp only [List.map_cons, List.mapM_cons, ih, languageLabel_roundtrip]
    rfl

/-! ### Claim C6 — serialization round-trip -/

/-- C6: deserializing the persisted record of any task restores the task in
full — in particular its `id`, `state`, resource descriptor (with the
quality and language enum fields) and extension map equal the original's. -/
theorem from_dict_to_dict (t : DownloadTask) :
    DownloadTask.from_dict t.to_dict = Except.ok t := by
  cases t with
  | mk id state error_message retry_count max_retries save_path temp_path
      final_path downloaded_filename initial_files created_at updated_at
      started_at completed_at resource_info extra_data =>
    cases resource_info with
    | mk title download_url anime_name season episode fansub quality
        languages version =>
      simp only [DownloadTask.to_dict, DownloadTask.from_dict,
        resourceInfoFromRecord, stateLabel_roundtrip,
        languages_roundtrip]
      cases quality with
      | none => rfl
      | some q => cases q <;> rfl

/-! ### Sample values used by witnesses and counterexamples -/

/-- A concrete resource descriptor, as the RSS pipeline would supply. -/
def sampleResource : AnimeResourceInfo :=
  { title := "[SubGroup] Test - 01", download_url := "magnet:?xt=urn:btih:abc123",
    anime_name := some "Test", season := some 1, episode := some 1 }

/-- A concrete freshly created task (`DownloadTask.from_resource_info` with a
fixed id and timestamp). -/
def sampleTask : DownloadTask :=
  { id := "11111111-2222-3333-4444-555555555555"
    created_at := "2026-01-01T00:00:00"
    updated_at := "2026-01-01T00:00:00"
    save_path := "/downloads"
    resource_info := sampleResource }

/-- A persisted record carrying the legacy state label `"transferring"`,
the transfer state's label in the schema the repository's own tests still
use (`DownloadState.TRANSFERRING`). -/
def legacyRecord : TaskRecord :=
  { sampleTask.to_dict with state := "transferring" }

/-! ### Claim C4 — legacy state labels on deserialization -/

/-- C4 counterexample: `from_dict` on a record whose state label is the
legacy `"transferring"` does not map it to a current state — it raises
`ValueError` (the `DownloadState` constructor rejects the label). -/
theorem from_dict_legacy_label_rejected :
    DownloadTask.from_dict legacyRecord =
      Except.error (TaskError.valueError "transferring") := by
  rfl

/-- C4 (amended): for every persisted record whose state label is unknown
(not one of the seven current `DownloadState` values), `from_dict` rejects
the record with a `ValueError` rather than mapping it to a nearest current
equivalent. -/
theorem from_dict_unknown_state_errors (r : TaskRecord)
    (h : DownloadState.ofLabel r.state = none) :
    DownloadTask.from_dict r = Except.error (TaskError.valueError r.state) := by
  simp only [DownloadTask.from_dict, h]
  rfl

/-- Witness for `from_dict_unknown_state_errors` at the concrete legacy
record. -/
theorem from_dict_unknown_state_errors_witness :
    DownloadState.ofLabel legacyRecord.state = none ∧
      DownloadTask.from_dict legacyRecord =
        Except.error (TaskError.valueError legacyRecord.state) :=
  ⟨rfl, from_dict_unknown_state_errors legacyRecord rfl⟩

/-! ### Claim C5 — `can_retry` / `retry` and retry exhaustion -/

/-- A freshly created task with configurable `max_retries`, as
`DownloadManager.download` creates it (`DownloadTask.from_resource_info`). -/
def freshTask (id : String) (res : AnimeResourceInfo) (save : String)
    (now : String) (maxRetries : Nat) : DownloadTask :=
  { id := id
    created_at := now
    updated_at := now
    save_path := save
    resource_info := res
    max_retries := (maxRetries : Int) }

/-- One dispatch round that ends in handler failure, followed by the
manager's retry decision (`_dispatch_state` + `_handle_task_failure`): the
pending task moves to `DOWNLOADING`, the handler fails so `mark_failed`
runs, and then `retry()` is called exactly when `can_retry()` holds. -/
def failureRound (t : DownloadTask) (msg now : String) : DownloadTask :=
  match t.update_state .downloading now with
  | .error _ => t
  | .ok t1 =>
    match t1.mark_failed msg now with
    | .error _ => t1
    | .ok t2 =>
      if t2.can_retry then
        match t2.retry now with
        | .ok t3 => t3
        | .error _ => t2
      else t2

/-- `k` consecutive failure rounds. -/
def failureRounds (msg now : String) : Nat → DownloadTask → DownloadTask
  | 0, t => t
  | k + 1, t => failureRound (failureRounds msg now k t) msg now

/-- The fresh task after `j` successful retries. -/
def retriedTask (id : String) (res : AnimeResourceInfo) (save : String)
    (now : String) (maxRetries : Nat) (j : Nat) : DownloadTask :=
  { freshTask id res save now maxRetries with retry_count := (j : Int) }

theorem retriedTask_zero (id : String) (res : AnimeResourceInfo)
    (save now : String) (N : Nat) :
    retriedTask id res save now N 0 = freshTask id res save now N := by
  simp [retriedTask, freshTask]

/-- A failure round on a pending task that still has retries left bumps the
retry counter and returns to `PENDING`. -/
theorem failureRound_retries (id : String) (res : AnimeResourceInfo)
    (save now msg : String) (N j : Nat) (hj : j < N) :
    failureRound (retriedTask id res save now N j) msg now =
      retriedTask id res save now N (j + 1) := by
  have hjN : (j : Int) < (N : Int) := by exact_mod_cast hj
  simp [failureRound, retriedTask, freshTask, DownloadTask.update_state,
    DownloadTask.mark_failed, DownloadTask.can_retry, DownloadTask.retry,
    STATE_TRANSITIONS, hjN]

/-- A failure round on a pending task with no retries left lands in
`FAILED` with the message recorded. -/
theorem failureRound_exhausted (id : String) (res : AnimeResourceInfo)
    (save now msg : String) (N : Nat) :
    failureRound (retriedTask id res save now N N) msg now =
      { retriedTask id res save now N N with
          state := .failed, error_message := some msg } := by
  simp [failureRound, retriedTask, freshTask, DownloadTask.update_state,
    DownloadTask.mark_failed, DownloadTask.can_retry, DownloadTask.retry,
    STATE_TRANSITIONS]

/-- After `k ≤ N` failure rounds the task is back in `PENDING` with
`retry_count = k`. -/
theorem failureRounds_le (id : String) (res : AnimeResourceInfo)
    (save now msg : String) (N k : Nat) (hk : k ≤ N) :
    failureRounds msg now k (freshTask id res save now N) =
      retriedTask id res save now N k := by
  induction k with
  | zero => simp [failureRounds, retriedTask_zero]
  | succ k ih =>
    have hk' : k ≤ N := Nat.le_of_succ_le hk
    have hkN : k < N := Nat.lt_of_succ_le hk
    simp [failureRounds, ih hk', failureRound_retries id res save now msg N k hkN]

/-- C5: `can_retry()` holds exactly when the state is `FAILED` and
`retry_count < max_retries`; `retry()` raises (producing no mutated task)
exactly when `can_retry()` is false and otherwise increments the counter,
clears the error and resets to `PENDING`; the retry counter never exceeds
`max_retries` after `update_state`, `mark_failed` or `retry`; and a task
with `max_retries = N` that fails `N + 1` times in a row ends in `FAILED`
with `can_retry()` false, `retry_count = N`, and a further `retry()`
raising. -/
theorem retry_logic_spec :
    (∀ t : DownloadTask,
      t.can_retry = true ↔
        t.state = DownloadState.failed ∧ t.retry_count < t.max_retries) ∧
    (∀ (t : DownloadTask) (now : String),
      t.retry now =
        if t.can_retry then
          Except.ok { t with retry_count := t.retry_count + 1,
                             error_message := none,
                             state := .pending,
                             updated_at := now }
        else
          Except.error (TaskError.cannotRetry t.state t.retry_count
            t.max_retries)) ∧
    (∀ (t t' : DownloadTask), t.retry_count ≤ t.max_retries →
      ((∀ (s : DownloadState) (now : String), t.update_state s now = .ok t' →
          t'.retry_count ≤ t'.max_retries) ∧
       (∀ msg now : String, t.mark_failed msg now = .ok t' →
          t'.retry_count ≤ t'.max_retries) ∧
       (∀ now : String, t.retry now = .ok t' →
          t'.retry_count ≤ t'.max_retries))) ∧
    (∀ (id : String) (res : AnimeResourceInfo) (save now msg : String)
        (N : Nat),
      (failureRounds msg now (N + 1) (freshTask id res save now N)).state =
          DownloadState.failed ∧
      (failureRounds msg now (N + 1)
          (freshTask id res save now N)).retry_count = (N : Int) ∧
      (failureRounds msg now (N + 1)
          (freshTask id res save now N)).can_retry = false ∧
      (failureRounds msg now (N + 1) (freshTask id res save now N)).retry now
        = Except.error (TaskError.cannotRetry DownloadState.failed
            (N : Int) (N : Int))) := by
  refine ⟨?_, ?_, ?_, ?_⟩
  · intro t
    simp [DownloadTask.can_retry]
  · intro t now
    rfl
  · intro t t' hle
    refine ⟨?_, ?_, ?_⟩
    · intro s now h
      rw [DownloadTask.update_state] at h
      split at h
      · cases h
        simpa using hle
      · cases h
    · intro msg now h
      rw [DownloadTask.mark_failed, DownloadTask.update_state] at h
      split at h
      · cases h
        simpa using hle
      · cases h
    · intro now h
      rw [DownloadTask.retry] at h
      split at h
      case isTrue hc =>
        cases h
        have := (by simpa [DownloadTask.can_retry] using hc :
          t.state = DownloadState.failed ∧ t.retry_count < t.max_retries)
        simpa using this.2
      case isFalse hc => cases h
  · intro id res save now msg N
    have hrounds :
        failureRounds msg now (N + 1) (freshTask id res save now N) =
          { retriedTask id res save now N N with
              state := .failed, error_message := some msg } := by
      show failureRound
          (failureRounds msg now N (freshTask id res save now N)) msg now = _
      rw [failureRounds_le id res save now msg N N le_rfl,
        failureRound_exhausted]
    rw [hrounds]
    refine ⟨rfl, by simp [retriedTask, freshTask], ?_, ?_⟩
    · simp [DownloadTask.can_retry, retriedTask, freshTask]
    · simp [DownloadTask.retry, DownloadTask.can_retry, retriedTask, freshTask]

/-- Witness for `retry_logic_spec`: instantiated at a concrete failed task
and at the concrete exhaustion scenario with `max_retries = 1`. -/
theorem retry_logic_spec_witness :
    ({ sampleTask with state := DownloadState.failed }.retry "2026-01-01" =
        Except.ok { sampleTask with
                    state := DownloadState.pending,
                    retry_count := 1,
                    error_message := none,
                    updated_at := "2026-01-01" }) ∧
    ({ sampleTask with state := DownloadState.failed }.retry_count ≤
        { sampleTask with state := DownloadState.failed }.max_retries) ∧
    (failureRounds "err" "2026-01-01" 2
        (freshTask "id0" sampleResource "/dl" "2026-01-01" 1)).retry
        "2026-01-01" =
      Except.error (TaskError.cannotRetry DownloadState.failed 1 1) := by
  refine ⟨?_, by decide, ?_⟩
  · have h := retry_logic_spec.2.1
      { sampleTask with state := DownloadState.failed } "2026-01-01"
    rw [h]
    rfl
  · have h := (retry_logic_spec.2.2.2 "id0" sampleResource "/dl"
      "2026-01-01" "err" 1).2.2.2
    simpa using h

/-! ### `manager.py` vs `downloader/base.py` — the adapter interface -/

/-- `AttributeError`, raised by Python attribute lookup. -/
inductive PyError where
  | attributeError (name : String)
deriving DecidableEq, Repr

/-- Python attribute lookup: `getattr(obj, name)` resolves only when the
object's class defines the attribute, else raises `AttributeError`. -/
def getattr (attrs : List String) (name : String) : Except PyError String :=
  if name ∈ attrs then .ok name else .error (.attributeError name)

/-- The attributes `BaseDownloader` (`downloader/base.py` lines 34-58)
defines: the abstract property and the five abstract handlers. A subclass
that adds no extra methods exposes exactly these. -/
def BaseDownloader.methods : List String :=
  ["downloader_type", "on_pending", "on_downloading", "on_transferring",
   "on_cleaning_up", "on_failed"]

/-- Every method and property defined by `OpenListDownloader`
(`downloader/openlist_downloader.py`), inherited abstract methods
included. -/
def OpenListDownloader.methods : List String :=
  ["client", "downloader_type", "on_pending", "on_downloading",
   "_check_download_completed", "_wait_transfer_task_if_exists",
   "_check_transfer_once", "_find_undone_transfer", "_find_done_transfer",
   "_log_progress", "_detect_downloaded_file", "_collect_video_files",
   "on_transferring", "_build_final_dir_path", "_build_final_filename",
   "_rename_temp_file_if_needed", "on_cleaning_up", "on_failed", "_cleanup"]

/-- The attributes `DownloadManager.__init__` (`manager.py` lines 42-47)
reads off the downloader to build its handler table, in order. -/
def managerHandlerReads : List String :=
  ["handle_pending", "handle_downloading", "handle_downloaded",
   "handle_post_processing"]

/-- The attributes `HandlerResult` (`downloader/base.py` lines 15-31)
defines: its three dataclass fields and three classmethod constructors. -/
def HandlerResult.attrs : List String :=
  ["status", "error_message", "poll_delay", "done", "poll", "fail"]

/-- The attributes `DownloadManager._dispatch_state` (`manager.py` lines
248-274) reads off a handler's result. -/
def dispatchResultReads : List String :=
  ["success", "next_state", "delay_seconds"]

/-- Building the manager's handler table (`manager.py` lines 42-47): each
handler attribute is looked up on the downloader during `__init__`. -/
def DownloadManager.buildHandlers (downloaderAttrs : List String) :
    Except PyError (List String) :=
  managerHandlerReads.mapM (getattr downloaderAttrs)

/-! ### Claim C1 — the shipped adapter cannot be driven by the manager -/

/-- C1: constructing `DownloadManager` over the shipped `OpenListDownloader`
— or over any `BaseDownloader` subclass adding no extra methods — raises
`AttributeError` at the first handler-table lookup (`handle_pending`), and
independently every result attribute the dispatch loop reads is absent from
the adapter's `HandlerResult`, so no task could be dispatched through the
shipped adapter. -/
theorem manager_adapter_interface_mismatch :
    DownloadManager.buildHandlers BaseDownloader.methods =
        Except.error (PyError.attributeError "handle_pending") ∧
    DownloadManager.buildHandlers OpenListDownloader.methods =
        Except.error (PyError.attributeError "handle_pending") ∧
    dispatchResultReads.all (fun a => !HandlerResult.attrs.contains a) = true ∧
    managerHandlerReads.all (fun a => !BaseDownloader.methods.contains a) = true ∧
    managerHandlerReads.all
      (fun a => !OpenListDownloader.methods.contains a) = true := by
  refine ⟨rfl, rfl, rfl, rfl, rfl⟩

/-! ### `manager.py` — failure handling (`_handle_task_failure`) -/

/-- The externally visible actions `_handle_task_failure` and
`_finalize_task` can perform, in program order. `invokeOnFailedHook` stands
for an `await self._downloader.on_failed(task)` call. -/
inductive ManagerEvent where
  | saveState
  | invokeOnFailedHook
  | retryTask
  | dispatchState
  | runErrorCallbacks
  | removeFromTable
deriving DecidableEq, Repr

/-- `_finalize_task(task, success=False)` (`manager.py` line 192): persist,
run the error callbacks, remove the task from the table. -/
def finalizeFailedEvents : List ManagerEvent :=
  [.saveState, .runErrorCallbacks, .removeFromTable]

/-- `DownloadManager._handle_task_failure` (`manager.py` lines 285-307),
with its actions traced: persist; then, if `can_retry()`, call `retry()`,
persist again and re-enter the dispatch loop, else finalize the task as
failed. The source contains no call to the downloader's `on_failed` hook. -/
def handle_task_failure (t : DownloadTask) (now : String) :
    DownloadTask × List ManagerEvent :=
  if t.can_retry then
    match t.retry now with
    | .ok t' => (t', [.saveState, .retryTask, .saveState, .dispatchState])
    | .error _ => (t, [.saveState])
  else
    (t, .saveState :: finalizeFailedEvents)

/-- A task that has just failed with no retry budget left
(`max_retries = 0`), as produced by a failing `on_pending` handler. -/
def failedNoRetryTask : DownloadTask :=
  { sampleTask with
    state := .failed, max_retries := 0, error_message := some "err" }

/-- A task that has just failed and still has retries left. -/
def failedRetryableTask : DownloadTask :=
  { sampleTask with state := .failed, error_message := some "err" }

/-! ### Claim C7 — the failure hook is never invoked -/

/-- C7 evaluation: in both branches of the retry-or-finalize logic — the
retryable task and the exhausted task — the traced actions of
`_handle_task_failure` never include invoking the adapter's `on_failed`
hook; and this holds for every task. (The repository's own test
`test_on_failed_hook_called_on_failure` asserts the hook is awaited once,
which this refutes.) -/
theorem handle_task_failure_never_invokes_on_failed :
    (handle_task_failure failedRetryableTask "now").2 =
        [.saveState, .retryTask, .saveState, .dispatchState] ∧
    (handle_task_failure failedNoRetryTask "now").2 =
        [.saveState, .saveState, .runErrorCallbacks, .removeFromTable] ∧
    ∀ (t : DownloadTask) (now : String),
      ManagerEvent.invokeOnFailedHook ∉ (handle_task_failure t now).2 := by
  refine ⟨rfl, rfl, ?_⟩
  intro t now
  unfold handle_task_failure
  split
  · split <;> simp
  · simp [finalizeFailedEvents]

/-! ### `manager.py` — persistence (`_save_state` / `_load_state`) -/

/-- The terminal-state tuple used by `manager.py` when filtering
(`COMPLETED`, `FAILED`, `CANCELLED`). -/
def terminalStates : List DownloadState := [.completed, .failed, .cancelled]

/-- `DownloadManager._save_state` (`manager.py` lines 112-132): the mapping
written to disk — every tracked task whose state is not terminal, serialized
with `to_dict`. -/
def save_state_data (events : List (String × DownloadTask)) :
    List (String × TaskRecord) :=
  (events.filter fun p => !terminalStates.contains p.2.state).map
    fun p => (p.1, p.2.to_dict)

/-- `DownloadManager._load_state` (`manager.py` lines 87-110): each record
is deserialized and only non-terminal tasks are kept; any exception while
loading leaves the table empty. -/
def load_state (data : List (String × TaskRecord)) :
    List (String × DownloadTask) :=
  match data.mapM
      (fun p => (DownloadTask.from_dict p.2).map fun t => (p.1, t)) with
  | .error _ => []
  | .ok l => l.filter fun p => !terminalStates.contains p.2.state

theorem DownloadState.isTerminal_eq (s : DownloadState) :
    s.isTerminal = terminalStates.contains s := by
  cases s <;> rfl

/-! ### Claim C10 — the snapshot holds only non-terminal tasks -/

/-- C10: every record `_save_state` writes carries a non-terminal state
label, and every task `_load_state` admits into the table is non-terminal —
terminal tasks are never written back and never resurrected on load. -/
theorem persisted_snapshot_non_terminal (events : List (String × DownloadTask))
    (data : List (String × TaskRecord)) :
    ((save_state_data events).all fun p =>
        match DownloadState.ofLabel p.2.state with
        | some s => !s.isTerminal
        | none => false) = true ∧
    ((load_state data).all fun p => !p.2.state.isTerminal) = true := by
  constructor
  · rw [List.all_eq_true]
    intro p hp
    rw [save_state_data, List.mem_map] at hp
    obtain ⟨q, hq, rfl⟩ := hp
    rw [List.mem_filter] at hq
    have hq2 := hq.2
    simp only [DownloadTask.to_dict, stateLabel_roundtrip]
    rw [DownloadState.isTerminal_eq]
    simpa using hq2
  · rw [List.all_eq_true]
    intro p hp
    rw [load_state] at hp
    split at hp
    · simp at hp
    · rw [List.mem_filter] at hp
      rw [DownloadState.isTerminal_eq]
      exact hp.2

/-! ### `downloader/api/openlist.py` — `OpenListClient._request` -/

/-- What one HTTP attempt inside `_request` does: return a parsed JSON
body, raise a transient network/timeout error (`aiohttp.ClientError` /
`asyncio.TimeoutError`), or raise any other exception (e.g. a JSON decode
failure). The body is modelled as a flat string-to-int map, enough to carry
the `code` field the client inspects. -/
inductive AttemptOutcome where
  | success (resp : List (String × Int))
  | networkError
  | otherError
deriving DecidableEq, Repr

/-- The observable behaviour of one `_request` call: the returned value
(`none` models Python's `return None`), the backoff delays slept between
attempts, and how many attempts were made. -/
structure RequestResult where
  resp : Option (List (String × Int))
  delays : List ℚ
  attempts : Nat
deriving DecidableEq, Repr

/-- `self._max_retries = max(1, int(max_retries))` from
`OpenListClient.__init__` (`openlist.py` line 40). -/
def clampMaxRetries (n : Int) : Nat := (max 1 n).toNat

/-- The retry loop of `OpenListClient._request` (`openlist.py` lines
46-77), with `fuel` counting the attempts still available, so the current
attempt number is `maxRetries - fuel + 1`: a success returns the body at
once; a network error sleeps `base * 2 ^ (attempt - 1)` and retries while
`attempt < maxRetries`, else falls out of the loop; any other exception
breaks out of the loop immediately; falling out returns `None`. -/
def requestGo (base : ℚ) (maxRetries : Nat) (outcome : Nat → AttemptOutcome) :
    Nat → RequestResult
  | 0 => ⟨none, [], 0⟩
  | fuel + 1 =>
    let attempt := maxRetries - fuel
    match outcome attempt with
    | .success d => ⟨some d, [], 1⟩
    | .networkError =>
      if attempt < maxRetries then
        let rest := requestGo base maxRetries outcome fuel
        ⟨rest.resp, base * 2 ^ (attempt - 1) :: rest.delays, rest.attempts + 1⟩
      else ⟨none, [], 1⟩
    | .otherError => ⟨none, [], 1⟩

/-- `OpenListClient._request`, as a function of the per-attempt outcomes. -/
def OpenListClient.request (base : ℚ) (maxRetries : Nat)
    (outcome : Nat → AttemptOutcome) : RequestResult :=
  requestGo base maxRetries outcome maxRetries

/-- Python dict truthiness (`if data and ...`): a non-empty dict. -/
def dictTruthy (d : List (String × Int)) : Bool := !d.isEmpty

/-- `data.get(key)`. -/
def dictGet (d : List (String × Int)) (k : String) : Option Int :=
  (d.find? fun kv => kv.1 == k).map (·.2)

/-- `OpenListClient.mkdir` (`openlist.py` lines 217-232), as a function of
the token and the `_request` result: no token or no/failed response means
`False`, a truthy body whose `code` is 200 means `True`. -/
def OpenListClient.mkdir (token : String)
    (reqResp : Option (List (String × Int))) : Bool :=
  if token = "" then false
  else match reqResp with
    | none => false
    | some d => dictTruthy d && dictGet d "code" == some 200

/-- `OpenListClient.check_health` (`openlist.py` lines 87-100), as a
function of the `_request` result. -/
def OpenListClient.check_health
    (reqResp : Option (List (String × Int))) : Bool :=
  match reqResp with
  | none => false
  | some d => dictGet d "code" == some 200

/-- When every attempt hits a network error, the loop consumes all its
fuel, sleeping the doubling backoff before each retry. -/
theorem requestGo_all_network (base : ℚ) (n : Nat)
    (outcome : Nat → AttemptOutcome)
    (hnet : ∀ i, outcome i = .networkError) :
    ∀ f, f ≤ n →
      requestGo base n outcome f =
        ⟨none, (List.range' (n - f) (f - 1)).map fun i => base * 2 ^ i, f⟩ := by
  intro f
  induction f with
  | zero => intro _; rfl
  | succ f ih =>
    intro hf
    rw [requestGo]
    simp only [hnet]
    by_cases hlt : n - f < n
    · have hfn : f ≤ n := Nat.le_of_succ_le hf
      have hf1 : 1 ≤ f := by omega
      rw [if_pos hlt, ih hfn]
      have hr : List.range' (n - (f + 1)) (f + 1 - 1) =
          (n - f - 1) :: List.range' (n - f) (f - 1) := by
        have h1 : n - (f + 1) = n - f - 1 := by omega
        have h2 : f + 1 - 1 = (f - 1) + 1 := by omega
        have h3 : n - f - 1 + 1 = n - f := by omega
        rw [h1, h2, List.range'_succ, h3]
      rw [hr]
      rfl
    · have hf0 : f = 0 := by omega
      rw [if_neg hlt]
      subst hf0
      rfl

/-- If attempts `1 .. k - 1` hit network errors and attempt `k` ends the
loop (a non-network error or a success), the loop stops at attempt `k`:
`k` attempts are made and `k - 1` doubling backoffs are slept. The fuel
argument `f + 1` corresponds to current attempt number `n - f`. -/
theorem requestGo_stops_at (base : ℚ) (n : Nat)
    (outcome : Nat → AttemptOutcome) (k : Nat)
    (hnet : ∀ i, 1 ≤ i → i < k → outcome i = .networkError)
    (hstop : outcome k ≠ .networkError) :
    ∀ f, 1 ≤ n - f → n - f ≤ k → k ≤ n →
      requestGo base n outcome (f + 1) =
        ⟨match outcome k with
          | .success d => some d
          | _ => none,
         (List.range' (n - f - 1) (k - (n - f))).map fun i => base * 2 ^ i,
         k - (n - f) + 1⟩ := by
  intro f
  induction f with
  | zero =>
    intro h1 h2 h3
    have hkn : k = n := by omega
    rw [requestGo]
    simp only [Nat.sub_zero]
    rw [← hkn]
    have hz : k - k = 0 := Nat.sub_self k
    rw [hz]
    cases houtk : outcome k with
    | success d => rfl
    | networkError => exact absurd houtk hstop
    | otherError => rfl
  | succ f ih =>
    intro h1 h2 h3
    rw [requestGo]
    by_cases heq : n - (f + 1) = k
    · rw [heq]
      have hz : k - k = 0 := Nat.sub_self k
      rw [hz]
      cases houtk : outcome k with
      | success d => rfl
      | networkError => exact absurd houtk hstop
      | otherError => rfl
    · have hltk : n - (f + 1) < k := by omega
      rw [hnet _ h1 hltk]
      have hlt : n - (f + 1) < n := by omega
      rw [if_pos hlt]
      have hrec := ih (by omega) (by omega) h3
      rw [hrec]
      have hcount : k - (n - (f + 1)) = (k - (n - f)) + 1 := by omega
      have hstep : n - (f + 1) - 1 + 1 = n - f - 1 := by omega
      have hr : List.range' (n - (f + 1) - 1) (k - (n - (f + 1))) =
          (n - (f + 1) - 1) :: List.range' (n - f - 1) (k - (n - f)) := by
        rw [hcount, List.range'_succ, hstep]
      rw [hr]
      have hcount2 : k - (n - (f + 1)) + 1 = (k - (n - f) + 1) + 1 := by omega
      rw [hcount2]
      rfl

/-! ### Claim C8 — retry policy and sentinel returns of the API client -/

/-- C8: a run of `_request` whose attempts all hit transient network errors
retries up to the configured maximum, sleeping `base * 2 ^ (attempt - 1)`
between attempts (the delay doubles per attempt) and finally returns the
`None` sentinel; a non-network error at any attempt `k` stops the loop at
attempt `k` — no further retry — again returning `None`; a success at
attempt `k` after transient errors returns the parsed body; and the
operations built on `_request` (here `mkdir` and `check_health`) return
their `False` sentinel on a missing token, a failed request or a non-200
code, instead of raising. -/
theorem request_retry_spec :
    (∀ (base : ℚ) (n : Nat) (outcome : Nat → AttemptOutcome),
      (∀ i, outcome i = .networkError) →
      OpenListClient.request base n outcome =
        ⟨none, (List.range (n - 1)).map fun i => base * 2 ^ i, n⟩) ∧
    (∀ (base : ℚ) (n : Nat) (outcome : Nat → AttemptOutcome) (k : Nat),
      1 ≤ k → k ≤ n →
      (∀ i, 1 ≤ i → i < k → outcome i = .networkError) →
      outcome k = .otherError →
      OpenListClient.request base n outcome =
        ⟨none, (List.range (k - 1)).map fun i => base * 2 ^ i, k⟩) ∧
    (∀ (base : ℚ) (n : Nat) (outcome : Nat → AttemptOutcome) (k : Nat)
        (d : List (String × Int)),
      1 ≤ k → k ≤ n →
      (∀ i, 1 ≤ i → i < k → outcome i = .networkError) →
      outcome k = .success d →
      OpenListClient.request base n outcome =
        ⟨some d, (List.range (k - 1)).map fun i => base * 2 ^ i, k⟩) ∧
    (∀ resp, OpenListClient.mkdir "" resp = false) ∧
    (∀ token, OpenListClient.mkdir token none = false) ∧
    (∀ (token : String) (d : List (String × Int)),
      dictGet d "code" ≠ some 200 →
      OpenListClient.mkdir token (some d) = false) ∧
    (OpenListClient.check_health none = false) ∧
    (∀ d : List (String × Int), dictGet d "code" ≠ some 200 →
      OpenListClient.check_health (some d) = false) := by
  refine ⟨?_, ?_, ?_, ?_, ?_, ?_, rfl, ?_⟩
  · intro base n outcome hnet
    rw [OpenListClient.request,
      requestGo_all_network base n outcome hnet n (le_refl n),
      List.range_eq_range', Nat.sub_self]
  · intro base n outcome k hk1 hkn hnet hoth
    obtain ⟨m, rfl⟩ : ∃ m, n = m + 1 := ⟨n - 1, by omega⟩
    rw [OpenListClient.request,
      requestGo_stops_at base (m + 1) outcome k hnet
        (by rw [hoth]; intro h; cases h) m (by omega) (by omega) hkn]
    rw [hoth]
    have ha : k - (m + 1 - m) + 1 = k := by omega
    have hc : k - (m + 1 - m) = k - 1 := by omega
    have h0 : m + 1 - m - 1 = 0 := by omega
    rw [ha, hc, h0, ← List.range_eq_range']
  · intro base n outcome k d hk1 hkn hnet hsucc
    obtain ⟨m, rfl⟩ : ∃ m, n = m + 1 := ⟨n - 1, by omega⟩
    rw [OpenListClient.request,
      requestGo_stops_at base (m + 1) outcome k hnet
        (by rw [hsucc]; intro h; cases h) m (by omega) (by omega) hkn]
    rw [hsucc]
    have ha : k - (m + 1 - m) + 1 = k := by omega
    have hc : k - (m + 1 - m) = k - 1 := by omega
    have h0 : m + 1 - m - 1 = 0 := by omega
    rw [ha, hc, h0, ← List.range_eq_range']
  · intro resp
    rfl
  · intro token
    rw [OpenListClient.mkdir]
    split <;> rfl
  · intro token d h
    rw [OpenListClient.mkdir]
    split
    · rfl
    · have : (dictGet d "code" == some 200) = false := by
        simpa using h
      rw [this, Bool.and_false]
  · intro d h
    rw [OpenListClient.check_health]
    simpa using h

/-- Witness for `request_retry_spec`, with the default backoff base `0.8`
(= 4/5), three attempts, and concrete outcome schedules. -/
theorem request_retry_spec_witness :
    (OpenListClient.request (4/5) 3 (fun _ => .networkError) =
      ⟨none, (List.range 2).map fun i => (4/5 : ℚ) * 2 ^ i, 3⟩) ∧
    (OpenListClient.request (4/5) 3
        (fun i => if 2 ≤ i then .otherError else .networkError) =
      ⟨none, (List.range 1).map fun i => (4/5 : ℚ) * 2 ^ i, 2⟩) ∧
    (OpenListClient.request (4/5) 3
        (fun i => if 2 ≤ i then .success [("code", 200)]
                  else .networkError) =
      ⟨some [("code", 200)], (List.range 1).map fun i => (4/5 : ℚ) * 2 ^ i,
        2⟩) ∧
    OpenListClient.mkdir "tok" (some [("code", 500)]) = false ∧
    OpenListClient.check_health (some [("code", 500)]) = false := by
  refine ⟨?_, ?_, ?_, ?_, ?_⟩
  · exact request_retry_spec.1 (4/5) 3 (fun _ => .networkError) (fun i => rfl)
  · exact request_retry_spec.2.1 (4/5) 3 _ 2 (by omega) (by omega)
      (fun i h1 h2 => by simp [show ¬ 2 ≤ i by omega])
      (by simp)
  · exact request_retry_spec.2.2.1 (4/5) 3 _ 2 [("code", 200)] (by omega)
      (by omega)
      (fun i h1 h2 => by simp [show ¬ 2 ≤ i by omega])
      (by simp)
  · exact request_retry_spec.2.2.2.2.2.1 "tok" [("code", 500)] (by decide)
  · exact request_retry_spec.2.2.2.2.2.2.2 [("code", 500)] (by decide)

/-! ### `downloader/openlist_downloader.py` — downloaded file detection -/

/-- Index of the last `'.'` in a character list, if any. -/
def lastDotIdx : List Char → Option Nat
  | [] => none
  | c :: cs =>
    match lastDotIdx cs with
    | some i => some (i + 1)
    | none => if c = '.' then some 0 else none

/-- `os.path.splitext(name)[1]` for a bare file name (no path separator):
the suffix starting at the last dot, unless every character before that dot
is itself a dot (a leading-dot name has no extension). -/
def splitextExt (name : String) : String :=
  let cs := name.toList
  match lastDotIdx cs with
  | none => ""
  | some i =>
    if (cs.take i).any (fun c => c ≠ '.') then String.mk (cs.drop i) else ""

/-- `str.lower()` on an extension (ASCII). -/
def strLower (s : String) : String := String.mk (s.toList.map Char.toLower)

/-- `_VIDEO_EXTENSIONS` from `openlist_downloader.py` (lines 31-42). -/
def VIDEO_EXTENSIONS : List String :=
  [".mp4", ".mkv", ".avi", ".mov", ".flv", ".wmv", ".webm", ".mpg", ".mpeg"]

/-- `_is_video_file` (`openlist_downloader.py` line 45): the lower-cased
extension is a recognised video extension. -/
def _is_video_file (name : String) : Bool :=
  VIDEO_EXTENSIONS.contains (strLower (splitextExt name))

/-- One entry of a remote directory listing (`FileEntry`), with the listing
of its children inlined when it is a directory (each recursive
`list_files` call of the walk returns exactly the node's children; a failed
or empty listing is an empty child list, matching `if not files: return
[]`). -/
inductive RemoteEntry where
  | mk (name : String) (size : Option Int) (isDir : Bool)
      (children : List RemoteEntry)

def RemoteEntry.name : RemoteEntry → String
  | .mk n _ _ _ => n

def RemoteEntry.size : RemoteEntry → Option Int
  | .mk _ s _ _ => s

/-- `relative_name = f"{relative_prefix}/{name}" if relative_prefix else
name` from `_collect_video_files`. -/
def relNameOf (relPre name : String) : String :=
  if relPre = "" then name else relPre ++ "/" ++ name

/-- `OpenListDownloader._collect_video_files` (`openlist_downloader.py`
lines 302-331): walk the listing in order; a directory contributes its
recursive candidates in place; a file is a candidate when its name has a
video extension and its relative name is not in the initial snapshot, its
size defaulting to 0 when unknown (`isinstance(size, int)` fails). -/
def collect_video_files (initial : List String) :
    List RemoteEntry → String → List (String × Int)
  | [], _ => []
  | RemoteEntry.mk name size isDir children :: rest, relPre =>
    (if isDir then collect_video_files initial children (relNameOf relPre name)
     else if _is_video_file name && !initial.contains (relNameOf relPre name)
     then [(relNameOf relPre name, size.getD 0)]
     else []) ++ collect_video_files initial rest relPre
termination_by es _ => sizeOf es
decreasing_by all_goals (simp_wf; try omega)

/-- Stable insertion into a size-descending list: the new element goes in
front of the first element whose size is not larger, so among equal sizes
earlier (first-encountered) elements stay first. -/
def insertSizeDesc (x : String × Int) : List (String × Int) → List (String × Int)
  | [] => [x]
  | y :: ys => if y.2 ≤ x.2 then x :: y :: ys else y :: insertSizeDesc x ys

/-- `candidates.sort(key=lambda item: item[1], reverse=True)`: Python's
sort is stable, so this is a stable descending sort by size. -/
def sortSizeDesc : List (String × Int) → List (String × Int)
  | [] => []
  | x :: xs => insertSizeDesc x (sortSizeDesc xs)

/-- `OpenListDownloader._detect_downloaded_file` (`openlist_downloader.py`
lines 287-300) as a function of the temp directory tree: collect the
candidates, return `None` if there are none, else sort by size descending
and return the first candidate's relative name. -/
def detect_downloaded_file (tempTree : List RemoteEntry)
    (initial : List String) : Option String :=
  let candidates := collect_video_files initial tempTree ""
  if candidates.isEmpty then none
  else
    match sortSizeDesc candidates with
    | [] => none
    | c :: _ => some c.1

/-- The plain pre-order traversal of the listing: every file with its
relative name, base name and raw size, in the order the walk encounters
them. -/
def walk_files : List RemoteEntry → String → List (String × String × Option Int)
  | [], _ => []
  | RemoteEntry.mk name size isDir children :: rest, relPre =>
    (if isDir then walk_files children (relNameOf relPre name)
     else [(relNameOf relPre name, name, size)]) ++
      walk_files rest relPre
termination_by es _ => sizeOf es
decreasing_by all_goals (simp_wf; try omega)

theorem insertSizeDesc_ne_nil (x : String × Int) (l : List (String × Int)) :
    insertSizeDesc x l ≠ [] := by
  cases l with
  | nil => simp [insertSizeDesc]
  | cons y ys =>
    rw [insertSizeDesc]
    split <;> simp

theorem sortSizeDesc_eq_nil_iff (l : List (String × Int)) :
    sortSizeDesc l = [] ↔ l = [] := by
  cases l with
  | nil => simp [sortSizeDesc]
  | cons x xs =>
    rw [sortSizeDesc]
    simp [insertSizeDesc_ne_nil]

theorem mem_insertSizeDesc (x y : String × Int) (l : List (String × Int)) :
    y ∈ insertSizeDesc x l ↔ y = x ∨ y ∈ l := by
  induction l with
  | nil => simp [insertSizeDesc]
  | cons z zs ih =>
    rw [insertSizeDesc]
    split
    · simp
    · simp only [List.mem_cons, ih]
      tauto

theorem mem_sortSizeDesc (y : String × Int) (l : List (String × Int)) :
    y ∈ sortSizeDesc l ↔ y ∈ l := by
  induction l with
  | nil => simp [sortSizeDesc]
  | cons x xs ih =>
    rw [sortSizeDesc, mem_insertSizeDesc]
    simp [ih]

/-- The head of the sorted list dominates every element of the input. -/
theorem sortSizeDesc_head_max (l : List (String × Int)) (z : String × Int)
    (zs : List (String × Int)) (h : sortSizeDesc l = z :: zs) :
    ∀ p ∈ l, p.2 ≤ z.2 := by
  induction l generalizing z zs with
  | nil => simp [sortSizeDesc] at h
  | cons x xs ih =>
    rw [sortSizeDesc] at h
    intro p hp
    cases hsort : sortSizeDesc xs with
    | nil =>
      have hxs : xs = [] := (sortSizeDesc_eq_nil_iff xs).mp hsort
      subst hxs
      rw [hsort] at h
      rw [insertSizeDesc] at h
      cases h
      rcases List.mem_cons.mp hp with rfl | hmem
      · exact le_refl _
      · simp at hmem
    | cons w ws =>
      rw [hsort] at h
      rw [insertSizeDesc] at h
      rcases List.mem_cons.mp hp with rfl | hmem
      · split at h
        case isTrue hle =>
          cases h
          exact le_refl _
        case isFalse hgt =>
          cases h
          omega
      · have hw : p.2 ≤ w.2 := ih w ws hsort p hmem
        split at h
        case isTrue hle =>
          cases h
          omega
        case isFalse hgt =>
          cases h
          exact hw

/-- The head of the stable descending sort is the first element of the
input whose size dominates every element — the "largest, ties broken by
first encountered" pick. -/
theorem sortSizeDesc_head_eq_find (l : List (String × Int)) :
    (sortSizeDesc l).head? =
      l.find? fun p => l.all fun q => decide (q.2 ≤ p.2) := by
  induction l with
  | nil => rfl
  | cons x xs ih =>
    rw [sortSizeDesc]
    cases hsort : sortSizeDesc xs with
    | nil =>
      have hxs : xs = [] := (sortSizeDesc_eq_nil_iff xs).mp hsort
      subst hxs
      simp [insertSizeDesc, List.find?]
    | cons w ws =>
      have hw_mem : w ∈ xs := by
        have : w ∈ sortSizeDesc xs := by
          rw [hsort]; exact List.mem_cons_self w ws
        exact (mem_sortSizeDesc w xs).mp this
      have hw_max : ∀ p ∈ xs, p.2 ≤ w.2 :=
        sortSizeDesc_head_max xs w ws hsort
      rw [insertSizeDesc]
      split
      case isTrue hle =>
        have hall : ((x :: xs).all fun q => decide (q.2 ≤ x.2)) = true := by
          rw [List.all_eq_true]
          intro q hq
          rcases List.mem_cons.mp hq with rfl | hmem
          · simp
          · have := hw_max q hmem
            simp
            omega
        simp only [List.find?_cons]
        rw [hall]
        rfl
      case isFalse hgt =>
        have hxfail : ((x :: xs).all fun q => decide (q.2 ≤ x.2)) = false := by
          rw [List.all_eq_false]
          refine ⟨w, List.mem_cons_of_mem x hw_mem, ?_⟩
          simp
          omega
        have hfun : (fun p : String × Int =>
              (x :: xs).all fun q => decide (q.2 ≤ p.2)) =
            (fun p : String × Int => xs.all fun q => decide (q.2 ≤ p.2)) := by
          funext p
          cases hpx : xs.all fun q => decide (q.2 ≤ p.2) with
          | false =>
            rw [List.all_cons]
            rw [hpx, Bool.and_false]
          | true =>
            rw [List.all_cons]
            have hwp : w.2 ≤ p.2 := by
              rw [List.all_eq_true] at hpx
              have := hpx w hw_mem
              simpa using this
            have hx : decide (x.2 ≤ p.2) = true := by
              simp
              omega
            rw [hpx, hx, Bool.true_and]
        simp only [List.find?_cons]
        rw [hxfail, hfun, ← ih, hsort]
        rfl

/-- The walk-and-filter of `_collect_video_files` is the filter of the
plain pre-order traversal. -/
theorem collect_eq_walk_filter (initial : List String) :
    ∀ (es : List RemoteEntry) (pre : String),
    collect_video_files initial es pre =
      (walk_files es pre).filterMap fun t =>
        if _is_video_file t.2.1 && !initial.contains t.1 then
          some (t.1, t.2.2.getD 0)
        else none := by
  intro es pre
  induction es, pre using collect_video_files.induct initial with
  | case1 pre => rw [collect_video_files, walk_files]; rfl
  | case2 name size isDir children rest relPre ihc ihr =>
    rw [collect_video_files, walk_files]
    simp only [List.filterMap_append]
    cases isDir with
    | true =>
      simp only [if_true]
      rw [ihc, ihr]
    | false =>
      simp only [Bool.false_eq_true, if_false]
      rw [ihr]
      simp only [List.filterMap_cons, List.filterMap_nil]
      split
      case isTrue h => rfl
      case isFalse h => rfl

/-! ### Claim C9 — detection picks the largest new video file -/

/-- C9: the candidate set of the detection walk is exactly the pre-order
traversal of the temp directory filtered to files with a recognised video
extension whose relative name is absent from the initial snapshot (partial
download markers such as `.aria2` files have no video extension and are
skipped); detection returns the first-encountered candidate of maximal
size (largest file, size ties broken in favour of traversal order), and
returns nothing exactly when there is no candidate. -/
theorem detect_downloaded_file_spec (tempTree : List RemoteEntry)
    (initial : List String) :
    (collect_video_files initial tempTree "" =
      (walk_files tempTree "").filterMap fun t =>
        if _is_video_file t.2.1 && !initial.contains t.1 then
          some (t.1, t.2.2.getD 0)
        else none) ∧
    (detect_downloaded_file tempTree initial =
      ((collect_video_files initial tempTree "").find? fun p =>
          (collect_video_files initial tempTree "").all fun q =>
            decide (q.2 ≤ p.2)).map (·.1)) ∧
    (detect_downloaded_file tempTree initial = none ↔
      collect_video_files initial tempTree "" = []) := by
  refine ⟨?_, ?_, ?_⟩
  · exact collect_eq_walk_filter initial tempTree ""
  · rw [detect_downloaded_file, ← sortSizeDesc_head_eq_find]
    cases hc : collect_video_files initial tempTree "" with
    | nil => simp [sortSizeDesc]
    | cons c cs =>
      simp only [List.isEmpty_cons, if_neg]
      cases hs : sortSizeDesc (c :: cs) with
      | nil =>
        exact absurd ((sortSizeDesc_eq_nil_iff _).mp hs) (by simp)
      | cons d ds => simp
  · rw [detect_downloaded_file]
    cases hc : collect_video_files initial tempTree "" with
    | nil => simp
    | cons c cs =>
      simp only [List.isEmpty_cons, if_neg]
      constructor
      · intro h
        cases hs : sortSizeDesc (c :: cs) with
        | nil => exact absurd ((sortSizeDesc_eq_nil_iff _).mp hs) (by simp)
        | cons d ds =>
          rw [hs] at h
          simp at h
      · intro h
        cases h

end OpenlistAni
